import Mathlib

/-!
Verification of the JSON-schema / BSON-schema validation engine
(`validate` / `safeValidate` and their keyword validators).

The embedding mirrors the TypeScript source:

* Data values are modelled by `JValue`.  The embedded data universe covers
  the generic JSON runtime values (plus the JavaScript `undefined` and
  `bigint` primitives).  BSON wrapper instances (`Long`, `Decimal128`,
  `Date`, `Timestamp`, `ObjectId`, `Buffer`) are outside this universe, so
  the `instanceof`-based classifiers are constantly false on embedded
  values.  JavaScript numbers are modelled as rationals (no NaN/Infinity);
  every claim under study evaluates on integral values.
* JavaScript exceptions are modelled by `Except JSError`:
  `JSError.vErr` is a thrown `ValidationError`; `JSError.typeError` models
  a runtime `TypeError` (e.g. reading a property of `undefined`);
  `JSError.fuelOut` is a recursion-fuel artefact of the embedding — the
  public entry points supply fuel exceeding the schema nesting depth, and
  every theorem below is either fuel-uniform or evaluated concretely.
* Regular-expression semantics (`new RegExp(p).test(s)`) are abstracted as
  an oracle `rx : String → String → Bool` threaded through the evaluator;
  no claim under study depends on a concrete regex.
* JavaScript `Set` membership and `Array.prototype.includes` use
  SameValueZero equality, which is reference equality on objects; the
  pure embedding uses structural equality (`jvEq`), and every theorem
  below evaluates these operations on scalar elements only, where the two
  coincide.
-/

/-- A decoded runtime value, as probed by the validator with
`typeof` / `instanceof`. -/
inductive JValue : Type where
  | undef
  | null
  | bool (b : Bool)
  | num (q : Rat)
  | bigintV (n : Int)
  | str (s : String)
  | arr (items : List JValue)
  | obj (fields : List (String × JValue))

/-- JavaScript `typeof`. Note `typeof null === "object"` and
`typeof [] === "object"`. -/
def jsTypeof : JValue → String
  | .undef => "undefined"
  | .null => "object"
  | .bool _ => "boolean"
  | .num _ => "number"
  | .bigintV _ => "bigint"
  | .str _ => "string"
  | .arr _ => "object"
  | .obj _ => "object"

mutual

/-- Structural value equality, standing in for JavaScript SameValueZero
(used by `Array.prototype.includes` and `Set`).  On reference types
SameValueZero is reference equality, which a pure embedding cannot
express; all theorems below apply it to scalar elements only. -/
def jvEq : JValue → JValue → Bool
  | .undef, .undef => true
  | .null, .null => true
  | .bool a, .bool b => a == b
  | .num a, .num b => a == b
  | .bigintV a, .bigintV b => a == b
  | .str a, .str b => a == b
  | .arr a, .arr b => jvEqList a b
  | .obj a, .obj b => jvEqFields a b
  | _, _ => false

def jvEqList : List JValue → List JValue → Bool
  | [], [] => true
  | a :: as, b :: bs => jvEq a b && jvEqList as bs
  | _, _ => false

def jvEqFields : List (String × JValue) → List (String × JValue) → Bool
  | [], [] => true
  | (k1, v1) :: as, (k2, v2) :: bs => k1 == k2 && jvEq v1 v2 && jvEqFields as bs
  | _, _ => false

end

/-- Integral rationals print like JavaScript integers; the non-integral
formatting (only reachable in error messages no claim exercises) uses the
Lean rational printer. -/
def jsNumToString (q : Rat) : String :=
  if q.den = 1 then toString q.num else toString q

mutual

/-- JavaScript string coercion as used by template literals. -/
def jsToString : JValue → String
  | .undef => "undefined"
  | .null => "null"
  | .bool b => if b then "true" else "false"
  | .num q => jsNumToString q
  | .bigintV n => toString n
  | .str s => s
  | .arr items => jsArrToString items
  | .obj _ => "[object Object]"

/-- `Array.prototype.toString` = `join(",")`; `null` and `undefined`
elements become empty strings. -/
def jsArrToString : List JValue → String
  | [] => ""
  | [x] =>
    match x with
    | .undef => ""
    | .null => ""
    | _ => jsToString x
  | x :: rest =>
    (match x with
     | .undef => ""
     | .null => ""
     | _ => jsToString x) ++ "," ++ jsArrToString rest

end

/-- `Array.prototype.join(",")` on strings — also how JavaScript coerces
an array used as a property key. -/
def jsJoinComma : List String → String
  | [] => ""
  | [x] => x
  | x :: rest => x ++ "," ++ jsJoinComma rest

-- Type Classifiers (JSONTypeValidators / BSONTypeValidators)

def jsIsNull : JValue → Bool
  | .null => true
  | _ => false

def jsIsBoolean (d : JValue) : Bool := jsTypeof d == "boolean"

def jsIsString (d : JValue) : Bool := jsTypeof d == "string"

def jsIsNumber (d : JValue) : Bool := jsTypeof d == "number"

def jsIsArray : JValue → Bool
  | .arr _ => true
  | _ => false

/-- `typeof data === "object" && data !== null` — note this is true for
arrays as well as plain objects. -/
def jsIsObject (d : JValue) : Bool := jsTypeof d == "object" && !(jsIsNull d)

/-- `typeof data === "number" && Number.isInteger(data)`. -/
def jsIsInt : JValue → Bool
  | .num q => q.den == 1
  | _ => false

/-- `typeof data === "number" && !Number.isInteger(data)`. -/
def jsIsDouble : JValue → Bool
  | .num q => !(q.den == 1)
  | _ => false

/-- `typeof data === "bigint" || data instanceof Long`; no embedded value
is a `Long` instance. -/
def jsIsLong : JValue → Bool
  | .bigintV _ => true
  | _ => false

/-- `data instanceof Decimal128`; no embedded value is such an instance. -/
def jsIsDecimal : JValue → Bool := fun _ => false

/-- `data instanceof Date`; no embedded value is such an instance. -/
def jsIsDate : JValue → Bool := fun _ => false

/-- `data instanceof Timestamp`; no embedded value is such an instance. -/
def jsIsTimestamp : JValue → Bool := fun _ => false

/-- `data instanceof ObjectId`; no embedded value is such an instance. -/
def jsIsObjectId : JValue → Bool := fun _ => false

/-- `data instanceof Buffer`; no embedded value is such an instance. -/
def jsIsBinData : JValue → Bool := fun _ => false

/-- The `JSONTypeValidators` record: property lookup by name, `none` when
the key is absent. -/
def jsonTypeValidator? (name : String) : Option (JValue → Bool) :=
  if name = "null" then some jsIsNull
  else if name = "boolean" then some jsIsBoolean
  else if name = "string" then some jsIsString
  else if name = "number" then some jsIsNumber
  else if name = "array" then some jsIsArray
  else if name = "object" then some jsIsObject
  else none

/-- The `BSONTypeValidators` record. -/
def bsonTypeValidator? (name : String) : Option (JValue → Bool) :=
  if name = "null" then some jsIsNull
  else if name = "bool" then some jsIsBoolean
  else if name = "string" then some jsIsString
  else if name = "object" then some jsIsObject
  else if name = "array" then some jsIsArray
  else if name = "int" then some jsIsInt
  else if name = "double" then some jsIsDouble
  else if name = "long" then some jsIsLong
  else if name = "decimal" then some jsIsDecimal
  else if name = "date" then some jsIsDate
  else if name = "timestamp" then some jsIsTimestamp
  else if name = "objectId" then some jsIsObjectId
  else if name = "binData" then some jsIsBinData
  else none

/-- The runtime value of a schema's `type`/`bsonType` field: a single name
or an array of names (the declared TS type is `JSONType | JSONType[]`). -/
inductive TypeVal : Type where
  | str (s : String)
  | list (l : List String)

/-- When a non-string value is used as a property key, JavaScript coerces
it with `toString`; for an array that is `join(",")`.  The same coercion
is performed by the template literal in the error message. -/
def jsTypeValKey : TypeVal → String
  | .str s => s
  | .list l => jsJoinComma l

/-- JavaScript truthiness of the `schema.type` field value: an empty
string is falsy, every array is truthy. -/
def typeValTruthy : TypeVal → Bool
  | .str s => !(s == "")
  | .list _ => true

/-- `TypeKeywordValidators.type`: look the (coerced) value up in
`JSONTypeValidators`; a lookup miss validates successfully. -/
def typeKwValidate (t : TypeVal) (d : JValue) : Bool :=
  match jsonTypeValidator? (jsTypeValKey t) with
  | some f => f d
  | none => true

/-- `TypeKeywordValidators.bsonType`. -/
def bsonTypeKwValidate (t : TypeVal) (d : JValue) : Bool :=
  match bsonTypeValidator? (jsTypeValKey t) with
  | some f => f d
  | none => true

-- The Schema data model (the JSONSchema interface of the source)

mutual

/-- One schema field.  A schema object is a finite list of these; the
accessors below perform the property lookups the evaluator does. -/
inductive Keyword : Type where
  | title (v : String)
  | description (v : String)
  | allOf (l : List Schema)
  | anyOf (l : List Schema)
  | oneOf (l : List Schema)
  | notKw (s : Schema)
  | enumKw (vs : List JValue)
  | type (t : TypeVal)
  | bsonType (t : TypeVal)
  | minLength (v : Rat)
  | maxLength (v : Rat)
  | pattern (v : String)
  | multipleOf (v : Rat)
  | minimum (v : Rat)
  | exclusiveMinimum (v : Bool)
  | maximum (v : Rat)
  | exclusiveMaximum (v : Bool)
  | minItems (v : Rat)
  | maxItems (v : Rat)
  | uniqueItems (v : Bool)
  | items (v : ItemsVal)
  | additionalItems (v : BoolOrSchema)
  | minProperties (v : Rat)
  | maxProperties (v : Rat)
  | required (ks : List String)
  | properties (ps : List (String × Schema))
  | patternProperties (ps : List (String × Schema))
  | additionalProperties (v : BoolOrSchema)
  | dependencies (ds : List (String × DepVal))

/-- `items`: one schema for every element, or an ordered tuple. -/
inductive ItemsVal : Type where
  | single (s : Schema)
  | tuple (ts : List Schema)

/-- A `boolean | JSONSchema` field value. -/
inductive BoolOrSchema : Type where
  | bool (b : Bool)
  | schema (s : Schema)

/-- A `string[] | JSONSchema` dependency value. -/
inductive DepVal : Type where
  | keys (ks : List String)
  | schema (s : Schema)

/-- A schema object: its list of present fields (insertion order). -/
inductive Schema : Type where
  | mk (kws : List Keyword)

end

def Schema.kwList : Schema → List Keyword
  | .mk kws => kws

def Schema.allOf (s : Schema) : Option (List Schema) :=
  s.kwList.findSome? fun k => match k with | .allOf l => some l | _ => none

def Schema.anyOf (s : Schema) : Option (List Schema) :=
  s.kwList.findSome? fun k => match k with | .anyOf l => some l | _ => none

def Schema.oneOf (s : Schema) : Option (List Schema) :=
  s.kwList.findSome? fun k => match k with | .oneOf l => some l | _ => none

def Schema.notKw (s : Schema) : Option Schema :=
  s.kwList.findSome? fun k => match k with | .notKw x => some x | _ => none

def Schema.enumKw (s : Schema) : Option (List JValue) :=
  s.kwList.findSome? fun k => match k with | .enumKw vs => some vs | _ => none

def Schema.type (s : Schema) : Option TypeVal :=
  s.kwList.findSome? fun k => match k with | .type t => some t | _ => none

def Schema.bsonType (s : Schema) : Option TypeVal :=
  s.kwList.findSome? fun k => match k with | .bsonType t => some t | _ => none

def Schema.minLength (s : Schema) : Option Rat :=
  s.kwList.findSome? fun k => match k with | .minLength v => some v | _ => none

def Schema.maxLength (s : Schema) : Option Rat :=
  s.kwList.findSome? fun k => match k with | .maxLength v => some v | _ => none

def Schema.pattern (s : Schema) : Option String :=
  s.kwList.findSome? fun k => match k with | .pattern v => some v | _ => none

def Schema.multipleOf (s : Schema) : Option Rat :=
  s.kwList.findSome? fun k => match k with | .multipleOf v => some v | _ => none

def Schema.minimum (s : Schema) : Option Rat :=
  s.kwList.findSome? fun k => match k with | .minimum v => some v | _ => none

def Schema.exclusiveMinimum (s : Schema) : Option Bool :=
  s.kwList.findSome? fun k => match k with | .exclusiveMinimum v => some v | _ => none

def Schema.maximum (s : Schema) : Option Rat :=
  s.kwList.findSome? fun k => match k with | .maximum v => some v | _ => none

def Schema.exclusiveMaximum (s : Schema) : Option Bool :=
  s.kwList.findSome? fun k => match k with | .exclusiveMaximum v => some v | _ => none

def Schema.minItems (s : Schema) : Option Rat :=
  s.kwList.findSome? fun k => match k with | .minItems v => some v | _ => none

def Schema.maxItems (s : Schema) : Option Rat :=
  s.kwList.findSome? fun k => match k with | .maxItems v => some v | _ => none

def Schema.uniqueItems (s : Schema) : Option Bool :=
  s.kwList.findSome? fun k => match k with | .uniqueItems v => some v | _ => none

def Schema.items (s : Schema) : Option ItemsVal :=
  s.kwList.findSome? fun k => match k with | .items v => some v | _ => none

def Schema.additionalItems (s : Schema) : Option BoolOrSchema :=
  s.kwList.findSome? fun k => match k with | .additionalItems v => some v | _ => none

def Schema.minProperties (s : Schema) : Option Rat :=
  s.kwList.findSome? fun k => match k with | .minProperties v => some v | _ => none

def Schema.maxProperties (s : Schema) : Option Rat :=
  s.kwList.findSome? fun k => match k with | .maxProperties v => some v | _ => none

def Schema.required (s : Schema) : Option (List String) :=
  s.kwList.findSome? fun k => match k with | .required ks => some ks | _ => none

def Schema.properties (s : Schema) : Option (List (String × Schema)) :=
  s.kwList.findSome? fun k => match k with | .properties ps => some ps | _ => none

def Schema.patternProperties (s : Schema) : Option (List (String × Schema)) :=
  s.kwList.findSome? fun k => match k with | .patternProperties ps => some ps | _ => none

def Schema.additionalProperties (s : Schema) : Option BoolOrSchema :=
  s.kwList.findSome? fun k => match k with | .additionalProperties v => some v | _ => none

def Schema.dependencies (s : Schema) : Option (List (String × DepVal)) :=
  s.kwList.findSome? fun k => match k with | .dependencies ds => some ds | _ => none

def isMetadataKey : Keyword → Bool
  | .title _ => true
  | .description _ => true
  | _ => false

/-- `hasValidationKeys`: some key other than `title`/`description` is
present. -/
def hasValidationKeys (s : Schema) : Bool :=
  decide (0 < (s.kwList.filter fun k => !(isMetadataKey k)).length)

-- Error model

/-- The `ValidationError` payload: `message`, `cause` (the offending
data), and the `key`/`path` fields filled in while unwinding.  An unset
`path` is `none`; `validateProperty` treats `none` and the empty string
alike (both are falsy in JavaScript). -/
structure VError : Type where
  message : String
  cause : JValue
  key : Option String
  path : Option String

/-- A thrown JavaScript exception: a `ValidationError`, a runtime
`TypeError`, or the embedding's fuel marker (never reached through the
public entry points on the inputs studied here). -/
inductive JSError : Type where
  | vErr (e : VError)
  | typeError (msg : String)
  | fuelOut

/-- The result union of `safeValidate`. -/
inductive SafeResult : Type where
  | valid
  | invalid (error : VError)

/-- Regular-expression semantics oracle, standing in for
`new RegExp(pattern).test(s)`. -/
abbrev RegexSem := String → String → Bool

/-- The type of the recursive evaluator, as passed to the keyword
validators. -/
abbrev VFun := Schema → JValue → Except JSError Unit

-- Scalar keyword validators (ScalarKeywordValidators)

/-- `minLength: (value, data) => data.length >= value`. -/
def minLengthV (value : Rat) (data : String) : Bool :=
  decide ((data.length : Rat) ≥ value)

/-- `maxLength: (value, data) => data.length <= value`. -/
def maxLengthV (value : Rat) (data : String) : Bool :=
  decide ((data.length : Rat) ≤ value)

/-- `pattern: (value, data) => new RegExp(value).test(data)`. -/
def patternV (rx : RegexSem) (value : String) (data : String) : Bool :=
  rx value data

/-- Truncation toward zero, as JavaScript `%` does. -/
def ratTrunc (q : Rat) : Int :=
  if q < 0 then -((-q).floor) else q.floor

/-- JavaScript remainder `a % b` (sign of the dividend). -/
def jsRem (a b : Rat) : Rat :=
  a - b * (ratTrunc (a / b) : Rat)

/-- `multipleOf: (value, data) => data % value === 0`. -/
def multipleOfV (value : Rat) (data : Rat) : Bool :=
  decide (jsRem data value = 0)

/-- `minimum: (value, data, schema) =>
(schema!.exclusiveMinimum ? data > value : data >= value)`.
When the call site omits the third argument, `schema` is `undefined` and
the property read throws a `TypeError`. -/
def minimumV (value : Rat) (data : Rat) (schema? : Option Schema) :
    Except JSError Bool :=
  match schema? with
  | none =>
    .error (.typeError "Cannot read properties of undefined (reading exclusiveMinimum)")
  | some s =>
    .ok (if s.exclusiveMinimum.getD false
         then decide (data > value) else decide (data ≥ value))

/-- `maximum: (value, data, schema) =>
(schema!.exclusiveMaximum ? data < value : data <= value)`. -/
def maximumV (value : Rat) (data : Rat) (schema? : Option Schema) :
    Except JSError Bool :=
  match schema? with
  | none =>
    .error (.typeError "Cannot read properties of undefined (reading exclusiveMaximum)")
  | some s =>
    .ok (if s.exclusiveMaximum.getD false
         then decide (data < value) else decide (data ≤ value))

-- Object access helpers

/-- `Object.entries(data)`: an object's fields in insertion order; for an
array, the indices (as decimal strings) paired with the elements. -/
def jsEntries : JValue → List (String × JValue)
  | .obj fields => fields
  | .arr items => items.enum.map fun p => (toString p.1, p.2)
  | _ => []

/-- `Object.keys(data)`. -/
def jsKeys (d : JValue) : List String := (jsEntries d).map Prod.fst

/-- Property read `data[key]`: `undefined` when absent. -/
def jsLookup (d : JValue) (key : String) : JValue :=
  match (jsEntries d).find? (fun p => p.1 == key) with
  | some p => p.2
  | none => .undef

def jvIsUndef : JValue → Bool
  | .undef => true
  | _ => false

-- Array keyword validators (ArrayKeywordValidators)

/-- `minItems: (value, data) => data.length >= value`. -/
def minItemsV (value : Rat) (data : List JValue) : Bool :=
  decide ((data.length : Rat) ≥ value)

/-- `maxItems: (value, data) => data.length <= value`. -/
def maxItemsV (value : Rat) (data : List JValue) : Bool :=
  decide ((data.length : Rat) ≤ value)

/-- The size of `new Set(data)`: count of SameValueZero-distinct
elements. -/
def jsSetSizeAux (seen : List JValue) : List JValue → Nat
  | [] => seen.length
  | x :: xs =>
    if seen.any (fun y => jvEq y x) then jsSetSizeAux seen xs
    else jsSetSizeAux (x :: seen) xs

def jsSetSize (data : List JValue) : Nat := jsSetSizeAux [] data

/-- `uniqueItems: (value, data) => value && new Set(data).size === data.length`.
Note the conjunction: with `value` false the validator returns false. -/
def uniqueItemsV (value : Bool) (data : List JValue) : Bool :=
  value && (jsSetSize data == data.length)

/-- Tuple length used by `additionalItems`:
`Array.isArray(schema.items) ? schema.items.length : 1`. -/
def itemsOwnedCount : ItemsVal → Nat
  | .tuple ts => ts.length
  | .single _ => 1

-- Property partitioning (getPropertiesContext)

/-- The three mutually exclusive shapes of the object returned by
`getPropertiesContext`: `{additionalKeys}`, `{patternKeys}` or `{}`. -/
inductive PropsCtx : Type where
  | additionalKeys (ks : List String)
  | patternKeys (ps : List (String × Schema))
  | empty

/-- `getPropertiesContext(data, properties, patternProperties)`.
Note the source computes `propertyKeys = properties ? Object.keys(data) : []`
— the keys of the DATA, not of `properties` — so whenever `properties` is
present, `otherKeys` is empty and the result is `{}`. -/
def getPropertiesContext (rx : RegexSem) (dataEntries : List (String × JValue))
    (properties? : Option (List (String × Schema)))
    (patternProperties? : Option (List (String × Schema))) : PropsCtx :=
  let dataKeys := dataEntries.map Prod.fst
  let propertyKeys : List String := if properties?.isSome then dataKeys else []
  let otherKeys := dataKeys.filter fun k => !(propertyKeys.contains k)
  if 0 < otherKeys.length then
    let patterns := patternProperties?.getD []
    let patternKeys := otherKeys.filterMap fun k =>
      (patterns.find? fun p => rx p.1 k).map fun p => (k, p.2)
    let matchedKeys := patternKeys.map Prod.fst
    if matchedKeys.length < otherKeys.length then
      .additionalKeys (otherKeys.filter fun k => !(matchedKeys.contains k))
    else
      .patternKeys patternKeys
  else
    .empty

-- Logical keyword validators (the list walkers mirror the semantics of
-- the Array.prototype methods applied to a callback that returns true or
-- throws)

/-- `value.every((schema) => validate(schema, data))`: `validate` only
returns `true` or throws, so every element is visited. -/
def everyValidate (v : VFun) (d : JValue) : List Schema → Except JSError Bool
  | [] => .ok true
  | s :: rest => do
    let _ ← v s d
    everyValidate v d rest

/-- `allOf`. -/
def allOfV (v : VFun) (value : List Schema) (d : JValue) : Except JSError Bool :=
  everyValidate v d value

/-- `anyOf: value.some((schema) => validate(schema, data))`: `some` stops
at the first truthy callback result, and `validate` returns `true` or
throws, so only the first sub-schema is ever evaluated. -/
def anyOfV (v : VFun) (value : List Schema) (d : JValue) : Except JSError Bool :=
  match value with
  | [] => .ok false
  | s :: _ => do
    let _ ← v s d
    .ok true

/-- `value.filter((schema) => validate(schema, data))`: each callback
returns `true` or throws, so on success the whole list is kept. -/
def filterValidate (v : VFun) (d : JValue) :
    List Schema → Except JSError (List Schema)
  | [] => .ok []
  | s :: rest => do
    let _ ← v s d
    let kept ← filterValidate v d rest
    .ok (s :: kept)

/-- `oneOf: value.filter((schema) => validate(schema, data)).length === 1`. -/
def oneOfV (v : VFun) (value : List Schema) (d : JValue) : Except JSError Bool := do
  let kept ← filterValidate v d value
  .ok (decide (kept.length = 1))

/-- `not: (value, data) => !validate(value, data)`. -/
def notV (v : VFun) (value : Schema) (d : JValue) : Except JSError Bool := do
  let _ ← v value d
  .ok false

/-- `enum: (value, data) => value.includes(data)`. -/
def enumV (value : List JValue) (d : JValue) : Bool :=
  value.any fun x => jvEq x d

-- Object keyword validators (ObjectKeywordValidators)

/-- `minProperties: Object.keys(data).length >= value`. -/
def minPropertiesV (value : Rat) (d : JValue) : Bool :=
  decide (((jsKeys d).length : Rat) ≥ value)

/-- `maxProperties: Object.keys(data).length <= value`. -/
def maxPropertiesV (value : Rat) (d : JValue) : Bool :=
  decide (((jsKeys d).length : Rat) ≤ value)

/-- `required: value.every((key) => data[key] !== undefined)`. -/
def requiredV (value : List String) (d : JValue) : Bool :=
  value.all fun k => !(jvIsUndef (jsLookup d k))

/-- `validateProperty(key, data, schema)`: validate `data[key]`; when a
`ValidationError` escapes, set its `key` and prefix its `path` with the
current key (a falsy — absent or empty — path becomes just the key), then
re-throw.  Any other exception is re-thrown untouched. -/
def validatePropertyW (v : VFun) (key : String) (d : JValue) (schema : Schema) :
    Except JSError Bool :=
  match v schema (jsLookup d key) with
  | .ok _ => .ok true
  | .error (.vErr e) =>
    .error (.vErr (VError.mk e.message e.cause (some key)
      (some (match e.path with
             | some p => if p == "" then key else key ++ "." ++ p
             | none => key))))
  | .error err => .error err

/-- `.every(([key, schema]) => validateProperty(key, data, schema))` over
key/schema pairs; `every` stops at the first falsy result. -/
def propsEvery (v : VFun) (d : JValue) :
    List (String × Schema) → Except JSError Bool
  | [] => .ok true
  | (k, sub) :: rest => do
    let r ← validatePropertyW v k d sub
    if r then propsEvery v d rest else .ok false

/-- `properties`: `Object.entries(value).filter(([key]) => data[key] !==
undefined).every(([key, schema]) => validateProperty(key, data, schema))`. -/
def propertiesW (v : VFun) (value : List (String × Schema)) (d : JValue) :
    Except JSError Bool :=
  propsEvery v d (value.filter fun p => !(jvIsUndef (jsLookup d p.1)))

/-- `patternProperties`: partition the data keys, then validate the
pattern-matched ones; `{patternKeys}` absent means success. -/
def patternPropertiesW (rx : RegexSem) (v : VFun)
    (value : List (String × Schema)) (d : JValue) (schema : Schema) :
    Except JSError Bool :=
  match getPropertiesContext rx (jsEntries d) schema.properties (some value) with
  | .patternKeys pks => propsEvery v d pks
  | _ => .ok true

/-- `additionalKeys.every((key) => validateProperty(key, data, value))`. -/
def keysEvery (v : VFun) (sub : Schema) (d : JValue) :
    List String → Except JSError Bool
  | [] => .ok true
  | k :: rest => do
    let r ← validatePropertyW v k d sub
    if r then keysEvery v sub d rest else .ok false

/-- `additionalProperties`: no additional keys means success; a boolean
value decides directly; a schema value validates each additional key. -/
def additionalPropertiesW (rx : RegexSem) (v : VFun) (value : BoolOrSchema)
    (d : JValue) (schema : Schema) : Except JSError Bool :=
  match getPropertiesContext rx (jsEntries d) schema.properties
      schema.patternProperties with
  | .additionalKeys ks =>
    match value with
    | .bool b => .ok b
    | .schema sub => keysEvery v sub d ks
  | _ => .ok true

/-- `dependencies`: `.every` over the declared entries; an entry whose key
is absent from the data passes; a key-list dependency checks presence of
the co-required keys; a schema dependency validates the whole data. -/
def depsEvery (v : VFun) (d : JValue) :
    List (String × DepVal) → Except JSError Bool
  | [] => .ok true
  | (k, dep) :: rest => do
    let r ←
      if jvIsUndef (jsLookup d k) then pure true
      else
        match dep with
        | .keys ks => pure (ks.all fun dk => !(jvIsUndef (jsLookup d dk)))
        | .schema sub => do
          let _ ← v sub d
          pure true
    if r then depsEvery v d rest else .ok false

/-- `additionalItems`: a boolean value decides directly; with a schema
value, the elements beyond the owned count are each validated.  The third
parameter mirrors the optional `schema` argument (`schema!.items`). -/
def everyValidateVals (v : VFun) (sub : Schema) :
    List JValue → Except JSError Bool
  | [] => .ok true
  | x :: rest => do
    let _ ← v sub x
    everyValidateVals v sub rest

def additionalItemsV (v : VFun) (value : BoolOrSchema) (data : List JValue)
    (schema? : Option Schema) : Except JSError Bool :=
  match value with
  | .bool b => .ok b
  | .schema sub =>
    match schema? with
    | none =>
      .error (.typeError "Cannot read properties of undefined (reading items)")
    | some s =>
      match s.items with
      | some iv => everyValidateVals v sub (data.drop (itemsOwnedCount iv))
      | none => .ok true

/-- `items`: `data.every((item, index) => validate(value instanceof Array
? value[index] : value, item))`.  In tuple mode, an index beyond the tuple
length reads `undefined`, and `validate(undefined, item)` immediately
throws a `TypeError` in `hasValidationKeys` (`Object.keys(undefined)`). -/
def itemsEvery (v : VFun) (value : ItemsVal) :
    Nat → List JValue → Except JSError Bool
  | _, [] => .ok true
  | idx, item :: rest => do
    let _ ←
      match value with
      | .single sch => v sch item
      | .tuple ts =>
        match ts[idx]? with
        | some sch => v sch item
        | none =>
          .error (.typeError "Cannot convert undefined or null to object")
    itemsEvery v value (idx + 1) rest

def itemsV (v : VFun) (value : ItemsVal) (data : List JValue) :
    Except JSError Bool :=
  itemsEvery v value 0 data

-- The Dispatcher (validateLogical / validateType / validateScalar /
-- validateArray / validateObject / validate / safeValidate)

/-- `validateLogical`: the `allOf`/`anyOf`/`oneOf`/`not` validators are
invoked as bare expression statements — their boolean results are
discarded (only exceptions thrown by nested `validate` calls propagate);
only an `enum` mismatch throws directly. -/
def validateLogical (v : VFun) (s : Schema) (d : JValue) :
    Except JSError Unit := do
  match s.allOf with
  | some l => do
    let _ ← allOfV v l d
    pure ()
  | none => pure ()
  match s.anyOf with
  | some l => do
    let _ ← anyOfV v l d
    pure ()
  | none => pure ()
  match s.oneOf with
  | some l => do
    let _ ← oneOfV v l d
    pure ()
  | none => pure ()
  match s.notKw with
  | some sub => do
    let _ ← notV v sub d
    pure ()
  | none => pure ()
  match s.enumKw with
  | some vs =>
    if !(enumV vs d) then
      .error (.vErr (VError.mk
        ("Value \"" ++ jsToString d ++ "\" is not defined in enum.") d none none))
    else pure ()
  | none => pure ()

/-- `validateType`: a present and truthy `type`/`bsonType` that its
keyword validator rejects throws. -/
def validateType (s : Schema) (d : JValue) : Except JSError Unit := do
  match s.type with
  | some t =>
    if typeValTruthy t && !(typeKwValidate t d) then
      .error (.vErr (VError.mk
        ("Invalid type, expected " ++ jsTypeValKey t ++ ".") d none none))
    else pure ()
  | none => pure ()
  match s.bsonType with
  | some t =>
    if typeValTruthy t && !(bsonTypeKwValidate t d) then
      .error (.vErr (VError.mk
        ("Invalid BSON type, expected " ++ jsTypeValKey t ++ ".") d none none))
    else pure ()
  | none => pure ()

/-- `validateScalar`: string keywords when `typeof data === "string"`,
numeric keywords when `typeof data === "number"`.  The `minimum` and
`maximum` validators are called with two arguments, so their `schema`
parameter is `undefined` (modelled by passing `none`). -/
def validateScalar (rx : RegexSem) (s : Schema) (d : JValue) :
    Except JSError Bool := do
  match d with
  | .str sv => do
    match s.minLength with
    | some v =>
      if decide (v ≥ 0) && !(minLengthV v sv) then
        .error (.vErr (VError.mk
          ("String \"" ++ sv ++ "\" is less than the minimum length of "
            ++ jsNumToString v) d none none))
      else pure ()
    | none => pure ()
    match s.maxLength with
    | some v =>
      if decide (v ≥ 0) && !(maxLengthV v sv) then
        .error (.vErr (VError.mk
          ("String \"" ++ sv ++ "\" exceeds the maximum length of "
            ++ jsNumToString v) d none none))
      else pure ()
    | none => pure ()
    match s.pattern with
    | some p =>
      if !(p == "") && !(patternV rx p sv) then
        .error (.vErr (VError.mk
          ("String \"" ++ sv ++ "\" does not match the pattern " ++ p)
          d none none))
      else pure ()
    | none => pure ()
    pure true
  | .num q => do
    match s.multipleOf with
    | some v =>
      if decide (v > 0) && !(multipleOfV v q) then
        .error (.vErr (VError.mk
          ("Number " ++ jsNumToString q ++ " is not a multiple of "
            ++ jsNumToString v ++ ".") d none none))
      else pure ()
    | none => pure ()
    match s.minimum with
    | some m => do
      let ok ← minimumV m q none
      if !ok then
        .error (.vErr (VError.mk
          ("Number " ++ jsNumToString q ++ " is less than the minimum value of "
            ++ jsNumToString m ++ ".") d none none))
      else pure ()
    | none => pure ()
    match s.maximum with
    | some m => do
      let ok ← maximumV m q none
      if !ok then
        .error (.vErr (VError.mk
          ("Number " ++ jsNumToString q ++ " is exceeds the maximum value of "
            ++ jsNumToString m ++ ".") d none none))
      else pure ()
    | none => pure ()
    pure true
  | _ => pure true

/-- `validateArray`: array keywords when `data instanceof Array`.  The
`items` validator is invoked as a bare expression statement (result
discarded, exceptions propagate). -/
def validateArray (v : VFun) (s : Schema) (d : JValue) :
    Except JSError Unit := do
  match d with
  | .arr data => do
    match s.minItems with
    | some mv =>
      if decide (mv ≥ 0) && !(minItemsV mv data) then
        .error (.vErr (VError.mk
          ("Array item count " ++ jsToString d
            ++ " is less than the minimum count of " ++ jsNumToString mv ++ ".")
          d none none))
      else pure ()
    | none => pure ()
    match s.maxItems with
    | some mv =>
      if decide (mv ≥ 0) && !(maxItemsV mv data) then
        .error (.vErr (VError.mk
          ("Array item count " ++ jsToString d
            ++ " exceeds the maximum count of " ++ jsNumToString mv ++ ".")
          d none none))
      else pure ()
    | none => pure ()
    match s.uniqueItems with
    | some flag =>
      if !(uniqueItemsV flag data) then
        .error (.vErr (VError.mk "Array items are not unique." d none none))
      else pure ()
    | none => pure ()
    match s.items with
    | some iv => do
      let _ ← itemsV v iv data
      pure ()
    | none => pure ()
    match s.additionalItems with
    | some bs => do
      let ok ← additionalItemsV v bs data (some s)
      if !ok then
        .error (.vErr (VError.mk "Additional items are not allowed." d none none))
      else pure ()
    | none => pure ()
  | _ => pure ()

/-- `validateObject`: object keywords when `typeof data === "object" &&
data !== null` (so also on arrays, whose keys are their indices).  The
`properties`, `patternProperties` and `dependencies` validators are bare
expression statements — results discarded, exceptions propagate — while
`additionalProperties` gates a throw. -/
def validateObject (rx : RegexSem) (v : VFun) (s : Schema) (d : JValue) :
    Except JSError Bool := do
  if jsIsObject d then do
    match s.minProperties with
    | some mv =>
      if decide (mv ≥ 0) && !(minPropertiesV mv d) then
        .error (.vErr (VError.mk
          ("Object property count " ++ jsToString d
            ++ " is less than the minimum count of " ++ jsNumToString mv ++ ".")
          d none none))
      else pure ()
    | none => pure ()
    match s.maxProperties with
    | some mv =>
      if decide (mv ≥ 0) && !(maxPropertiesV mv d) then
        .error (.vErr (VError.mk
          ("Object property count " ++ jsToString d
            ++ " exceeds the maximum count of " ++ jsNumToString mv ++ ".")
          d none none))
      else pure ()
    | none => pure ()
    match s.required with
    | some ks =>
      if !(requiredV ks d) then
        .error (.vErr (VError.mk "Object is missing required properties." d none none))
      else pure ()
    | none => pure ()
    match s.properties with
    | some ps => do
      let _ ← propertiesW v ps d
      pure ()
    | none => pure ()
    match s.patternProperties with
    | some pps => do
      let _ ← patternPropertiesW rx v pps d s
      pure ()
    | none => pure ()
    match s.additionalProperties with
    | some bs => do
      let ok ← additionalPropertiesW rx v bs d s
      if !ok then
        .error (.vErr (VError.mk "Additional properties are not allowed." d none none))
      else pure ()
    | none => pure ()
    match s.dependencies with
    | some ds => do
      let _ ← depsEvery v d ds
      pure ()
    | none => pure ()
    pure true
  else pure true

/-- The fuel-indexed recursive evaluator.  One unit of fuel is consumed
per `validate` frame; nested frames always descend into a structurally
smaller schema, so any fuel exceeding the schema nesting depth behaves
identically (the wrapper `validate` supplies `sizeOf` of the schema). -/
def validateF (rx : RegexSem) : Nat → Schema → JValue → Except JSError Unit
  | 0, _, _ => .error .fuelOut
  | n + 1, s, d =>
    let v : VFun := fun s2 d2 => validateF rx n s2 d2
    if hasValidationKeys s then do
      validateLogical v s d
      validateType s d
      let _ ← validateScalar rx s d
      validateArray v s d
      let _ ← validateObject rx v s d
      pure ()
    else pure ()

mutual

/-- A structural size of a schema, used as recursion fuel: it strictly
exceeds the schema nesting depth, so `validateF` never exhausts it. -/
def schemaFuel : Schema → Nat
  | .mk kws => 1 + kwListFuel kws

def kwListFuel : List Keyword → Nat
  | [] => 0
  | k :: rest => kwFuel k + kwListFuel rest

def kwFuel : Keyword → Nat
  | .allOf l => 1 + schemaListFuel l
  | .anyOf l => 1 + schemaListFuel l
  | .oneOf l => 1 + schemaListFuel l
  | .notKw s => 1 + schemaFuel s
  | .items iv => 1 + itemsFuel iv
  | .additionalItems v => 1 + bosFuel v
  | .properties ps => 1 + pairListFuel ps
  | .patternProperties ps => 1 + pairListFuel ps
  | .additionalProperties v => 1 + bosFuel v
  | .dependencies ds => 1 + depListFuel ds
  | _ => 1

def schemaListFuel : List Schema → Nat
  | [] => 0
  | s :: rest => schemaFuel s + schemaListFuel rest

def itemsFuel : ItemsVal → Nat
  | .single s => 1 + schemaFuel s
  | .tuple ts => 1 + schemaListFuel ts

def bosFuel : BoolOrSchema → Nat
  | .bool _ => 1
  | .schema s => 1 + schemaFuel s

def pairListFuel : List (String × Schema) → Nat
  | [] => 0
  | (_, s) :: rest => schemaFuel s + pairListFuel rest

def depListFuel : List (String × DepVal) → Nat
  | [] => 0
  | (_, .keys _) :: rest => 1 + depListFuel rest
  | (_, .schema s) :: rest => 1 + schemaFuel s + depListFuel rest

end

/-- `validate(schema, data)`: raises (models `throw`) on the first
failure, otherwise returns. -/
def validate (rx : RegexSem) (s : Schema) (d : JValue) : Except JSError Unit :=
  validateF rx (schemaFuel s) s d

/-- `safeValidate(schema, data)`: converts a thrown `ValidationError` into
a result value; any other exception is re-thrown. -/
def safeValidate (rx : RegexSem) (s : Schema) (d : JValue) :
    Except JSError SafeResult :=
  match validate rx s d with
  | .ok _ => .ok SafeResult.valid
  | .error (.vErr e) => .ok (SafeResult.invalid e)
  | .error err => .error err

/-- Regex oracle used for concrete evaluations; the schemas involved
contain no `pattern` or `patternProperties` keyword, so the choice is
irrelevant. -/
def noMatch : RegexSem := fun _ _ => false


-- Shared helper lemmas

theorem exc_bind_ok {α β ε : Type} (a : α) (f : α → Except ε β) :
    (Except.ok a >>= f : Except ε β) = f a := rfl

theorem exc_bind_error {α β ε : Type} (e : ε) (f : α → Except ε β) :
    ((Except.error e : Except ε α) >>= f : Except ε β) = Except.error e := rfl

theorem validateScalar_no_keys (rx : RegexSem) (s : Schema) (d : JValue)
    (h1 : s.minLength = none) (h2 : s.maxLength = none) (h3 : s.pattern = none)
    (h4 : s.multipleOf = none) (h5 : s.minimum = none) (h6 : s.maximum = none) :
    validateScalar rx s d = .ok true := by
  cases d <;> simp [validateScalar, h1, h2, h3, h4, h5, h6] <;> rfl

theorem validateArray_no_keys (v : VFun) (s : Schema) (d : JValue)
    (h1 : s.minItems = none) (h2 : s.maxItems = none) (h3 : s.uniqueItems = none)
    (h4 : s.items = none) (h5 : s.additionalItems = none) :
    validateArray v s d = .ok () := by
  cases d <;> simp [validateArray, h1, h2, h3, h4, h5] <;> rfl

theorem validateObject_no_keys (rx : RegexSem) (v : VFun) (s : Schema) (d : JValue)
    (h1 : s.minProperties = none) (h2 : s.maxProperties = none)
    (h3 : s.required = none) (h4 : s.properties = none)
    (h5 : s.patternProperties = none) (h6 : s.additionalProperties = none)
    (h7 : s.dependencies = none) :
    validateObject rx v s d = .ok true := by
  by_cases h : jsIsObject d <;>
    simp [validateObject, h, h1, h2, h3, h4, h5, h6, h7] <;> rfl

/-- A schema whose only key is `oneOf` reduces to the filter pass over the
sub-schemas: the count comparison is discarded, so the overall result is
success exactly when the filter raised nothing. -/
theorem validateF_oneOf_eq (rx : RegexSem) (n : Nat) (l : List Schema) (d : JValue) :
    validateF rx (n + 1) (Schema.mk [.oneOf l]) d =
      (match filterValidate (fun s2 d2 => validateF rx n s2 d2) d l with
       | .ok _ => .ok ()
       | .error e => .error e) := by
  have hsc := validateScalar_no_keys rx (Schema.mk [.oneOf l]) d rfl rfl rfl rfl rfl rfl
  have har := validateArray_no_keys (fun s2 d2 => validateF rx n s2 d2)
    (Schema.mk [.oneOf l]) d rfl rfl rfl rfl rfl
  have hob := validateObject_no_keys rx (fun s2 d2 => validateF rx n s2 d2)
    (Schema.mk [.oneOf l]) d rfl rfl rfl rfl rfl rfl rfl
  cases h : filterValidate (fun s2 d2 => validateF rx n s2 d2) d l with
  | ok kept =>
    simp [validateF, validateLogical, oneOfV, validateType, hasValidationKeys,
      Schema.allOf, Schema.anyOf, Schema.oneOf, Schema.notKw, Schema.enumKw,
      Schema.type, Schema.bsonType, Schema.kwList, List.findSome?, h, hsc, har, hob,
      exc_bind_ok, exc_bind_error, isMetadataKey]
  | error e =>
    simp [validateF, validateLogical, oneOfV, validateType, hasValidationKeys,
      Schema.allOf, Schema.anyOf, Schema.oneOf, Schema.notKw, Schema.enumKw,
      Schema.type, Schema.bsonType, Schema.kwList, List.findSome?, h, hsc, har, hob,
      exc_bind_ok, exc_bind_error, isMetadataKey]

/-- The filter over sub-schemas succeeds exactly when every sub-schema
validates (each failing sub-schema throws out of the filter). -/
theorem filterValidate_ok_iff (v : VFun) (d : JValue) (l : List Schema) :
    (∃ kept, filterValidate v d l = .ok kept) ↔ (∀ s ∈ l, v s d = .ok ()) := by
  induction l with
  | nil => simp [filterValidate]
  | cons s rest ih =>
    constructor
    · rintro ⟨kept, hk⟩ t ht
      cases hv : v s d with
      | error e => rw [filterValidate, hv] at hk; simp [exc_bind_error] at hk
      | ok u =>
        rcases List.mem_cons.mp ht with ht1 | ht2
        · subst ht1; cases u; exact hv
        · apply ih.mp _ t ht2
          rw [filterValidate, hv, exc_bind_ok] at hk
          cases hr : filterValidate v d rest with
          | error e => rw [hr] at hk; simp [exc_bind_error] at hk
          | ok kept2 => exact ⟨kept2, rfl⟩
    · intro hall
      have hv : v s d = .ok () := hall s (List.mem_cons_self s rest)
      obtain ⟨kept, hk⟩ := ih.mpr fun t ht => hall t (List.mem_cons_of_mem s ht)
      exact ⟨s :: kept, by rw [filterValidate, hv, exc_bind_ok, hk, exc_bind_ok]⟩

theorem str_ne_of_comma_mem {s t : String} (hs : ',' ∈ s.data)
    (ht : ¬(',' ∈ t.data)) : s ≠ t := fun h => ht (h ▸ hs)

theorem comma_mem_join (a b : String) (l : List String) :
    ',' ∈ (jsJoinComma (a :: b :: l)).data := by
  show ',' ∈ (a ++ "," ++ jsJoinComma (b :: l)).data
  have hd : (a ++ "," ++ jsJoinComma (b :: l)).data
      = a.data ++ ',' :: (jsJoinComma (b :: l)).data := by
    simp [String.data_append]
  rw [hd]
  exact List.mem_append_right _ (List.mem_cons_self _ _)

-- Claim theorems

/-- C1: the claim states that a schema with `minimum: m` accepts numeric
data `d ≥ m` (strictly greater when `exclusiveMinimum` is true), with the
symmetric behaviour for `maximum`.  The code instead crashes: on any
numeric data, a present `minimum` (or `maximum`) keyword makes
`validateScalar` call the keyword validator without its third `schema`
argument, so the validator dereferences `undefined` and a `TypeError`
escapes — the spec's own example `minimum: 5` applied to `5` neither
accepts nor rejects but throws. -/
theorem minimum_keyword_raises_type_error :
    validate noMatch (Schema.mk [.minimum 5]) (JValue.num 5) =
      .error (.typeError
        "Cannot read properties of undefined (reading exclusiveMinimum)")
    ∧ validate noMatch (Schema.mk [.maximum 5]) (JValue.num 5) =
      .error (.typeError
        "Cannot read properties of undefined (reading exclusiveMaximum)") :=
  ⟨rfl, rfl⟩

/-- C2: the claim states that `properties: {a: {}}` with
`additionalProperties: false` rejects `{a: 1, b: 2}`.  The code accepts
it: `getPropertiesContext` computes `propertyKeys` as `Object.keys(data)`
whenever `properties` is present, so no data key is ever classified as
additional and `additionalProperties` never rejects.  (The third conjunct
shows the partitioning does reject when `properties` is absent, isolating
the slip to the `properties`-present case.) -/
theorem additional_properties_ignored_when_properties_present :
    validate noMatch
      (Schema.mk [.properties [("a", Schema.mk [])],
        .additionalProperties (.bool false)])
      (JValue.obj [("a", JValue.num 1), ("b", JValue.num 2)]) = .ok ()
    ∧ validate noMatch
      (Schema.mk [.properties [("a", Schema.mk [])],
        .additionalProperties (.bool false)])
      (JValue.obj [("a", JValue.num 1)]) = .ok ()
    ∧ validate noMatch (Schema.mk [.additionalProperties (.bool false)])
      (JValue.obj [("a", JValue.num 1)]) =
      .error (.vErr (VError.mk "Additional properties are not allowed."
        (JValue.obj [("a", JValue.num 1)]) none none)) :=
  ⟨rfl, rfl, rfl⟩

/-- C3 (counterexample): `safeValidate` CAN raise — with schema
`{minimum: 5}` and data `5`, `validate` throws a `TypeError` (not a
`ValidationError`), and `safeValidate` re-throws it. -/
theorem safe_validate_raises_type_error :
    safeValidate noMatch (Schema.mk [.minimum 5]) (JValue.num 5) =
      .error (.typeError
        "Cannot read properties of undefined (reading exclusiveMinimum)") := rfl

/-- C3 (amended): `safeValidate` returns `{valid: true}` when `validate`
succeeds and `{valid: false, error}` with the identical `ValidationError`
when `validate` raises one; when `validate` raises any other exception
(which it can, e.g. a `TypeError` from the `minimum` keyword),
`safeValidate` re-throws it. -/
theorem safe_validate_result_correspondence (rx : RegexSem) (s : Schema) (d : JValue) :
    (validate rx s d = .ok () → safeValidate rx s d = .ok SafeResult.valid)
    ∧ (∀ e, validate rx s d = .error (.vErr e) →
        safeValidate rx s d = .ok (SafeResult.invalid e))
    ∧ (∀ m, validate rx s d = .error (.typeError m) →
        safeValidate rx s d = .error (.typeError m)) := by
  refine ⟨fun h => ?_, fun e h => ?_, fun m h => ?_⟩ <;> simp [safeValidate, h]

/-- C3 witness: the correspondence applied at a concrete rejected input
(`{type: "string"}` against the number `1`). -/
theorem safe_validate_result_correspondence_witness :
    safeValidate noMatch (Schema.mk [.type (.str "string")]) (JValue.num 1) =
      .ok (SafeResult.invalid (VError.mk "Invalid type, expected string."
        (JValue.num 1) none none)) :=
  (safe_validate_result_correspondence noMatch
      (Schema.mk [.type (.str "string")]) (JValue.num 1)).2.1
    (VError.mk "Invalid type, expected string." (JValue.num 1) none none) rfl

/-- C4 (counterexample): the claim states that a `type` given as the set
`["string", "null"]` fails on data matching neither name; the code
accepts the boolean `true`, because the set is coerced to the lookup key
`"string,null"`, no classifier is found, and a lookup miss passes. -/
theorem type_name_set_accepts_nonmember :
    validate noMatch (Schema.mk [.type (.list ["string", "null"])])
      (JValue.bool true) = .ok () := rfl

/-- C4 (amended): a singleton set behaves like the single name (the array
coerces to that name as lookup key); a set of two or more names coerces
to a comma-joined key that matches no classifier, so the check passes for
every data value; and an unrecognized single name never fails. -/
theorem type_keyword_set_lookup_semantics :
    (∀ (names : List String) (d : JValue), 2 ≤ names.length →
      typeKwValidate (.list names) d = true)
    ∧ (∀ (t : String) (d : JValue),
      typeKwValidate (.list [t]) d = typeKwValidate (.str t) d)
    ∧ (∀ (t : String) (d : JValue), jsonTypeValidator? t = none →
      typeKwValidate (.str t) d = true) := by
  refine ⟨?_, fun t d => rfl, fun t d h => by simp [typeKwValidate, jsTypeValKey, h]⟩
  intro names d h2
  cases names with
  | nil => simp at h2
  | cons a t =>
    cases t with
    | nil => simp at h2
    | cons b l =>
      have hm := comma_mem_join a b l
      have h1 : jsonTypeValidator? (jsJoinComma (a :: b :: l)) = none := by
        unfold jsonTypeValidator?
        rw [if_neg (str_ne_of_comma_mem hm (by decide)),
          if_neg (str_ne_of_comma_mem hm (by decide)),
          if_neg (str_ne_of_comma_mem hm (by decide)),
          if_neg (str_ne_of_comma_mem hm (by decide)),
          if_neg (str_ne_of_comma_mem hm (by decide)),
          if_neg (str_ne_of_comma_mem hm (by decide))]
      simp [typeKwValidate, jsTypeValKey, h1]

/-- C4 witness: the two-name set passes on a boolean, and the unrecognized
name `frobnicate` passes on a number. -/
theorem type_keyword_set_lookup_semantics_witness :
    typeKwValidate (.list ["string", "null"]) (JValue.bool true) = true
    ∧ typeKwValidate (.str "frobnicate") (JValue.num 1) = true :=
  ⟨type_keyword_set_lookup_semantics.1 ["string", "null"] (JValue.bool true)
      (by decide),
    type_keyword_set_lookup_semantics.2.2 "frobnicate" (JValue.num 1) rfl⟩

/-- C5 (counterexample): the claim (and the spec's testable property)
says `oneOf: [{type: "string"}, {minLength: 3}]` fails on the 5-character
string (both branches pass, count 2) and succeeds on the 1-character
string.  The code does the opposite: it accepts `"hello"` (the count
comparison is discarded) and rejects `"a"` (the failing `minLength`
branch throws out of the filter). -/
theorem one_of_example_reversed :
    validate noMatch
      (Schema.mk [.oneOf [Schema.mk [.type (.str "string")],
        Schema.mk [.minLength 3]]])
      (JValue.str "hello") = .ok ()
    ∧ validate noMatch
      (Schema.mk [.oneOf [Schema.mk [.type (.str "string")],
        Schema.mk [.minLength 3]]])
      (JValue.str "a") =
      .error (.vErr (VError.mk
        "String \"a\" is less than the minimum length of 3"
        (JValue.str "a") none none)) :=
  ⟨rfl, rfl⟩

/-- C5 (amended): validation of a schema whose only keyword is
`oneOf: [s1, ..., sn]` succeeds iff EVERY sub-schema validates the data —
equivalently it fails iff at least one sub-schema fails, the first
failure's error propagating — rather than iff the count of passing
sub-schemas differs from exactly 1 (the `length === 1` comparison is
computed and discarded).  Stated fuel-uniformly over the evaluator. -/
theorem one_of_succeeds_iff_every_branch_succeeds (rx : RegexSem) (n : Nat)
    (l : List Schema) (d : JValue) :
    validateF rx (n + 1) (Schema.mk [.oneOf l]) d = .ok () ↔
      ∀ s ∈ l, validateF rx n s d = .ok () := by
  rw [validateF_oneOf_eq]
  constructor
  · intro h
    cases hf : filterValidate (fun s2 d2 => validateF rx n s2 d2) d l with
    | error e => rw [hf] at h; simp at h
    | ok kept => exact (filterValidate_ok_iff _ _ _).mp ⟨kept, hf⟩
  · intro hall
    obtain ⟨kept, hk⟩ := (filterValidate_ok_iff _ _ _).mpr hall
    rw [hk]

/-- C6: the claim states the `uniqueItems` check passes whenever the flag
is false.  The code computes `value && allDistinct` and throws when that
is false, so `uniqueItems: false` rejects EVERY array — here the
one-element array `[1]`, whose items are trivially distinct, is rejected
with the message "Array items are not unique.". -/
theorem unique_items_false_rejects_every_array (l : List JValue) :
    validate noMatch (Schema.mk [.uniqueItems false]) (JValue.arr l) =
      .error (.vErr (VError.mk "Array items are not unique."
        (JValue.arr l) none none)) := rfl

/-- C7: the claim states that a key-list dependency `{a: ["b"]}` makes
validation fail on `{a: 1}` (key `b` missing).  The code accepts it: the
`dependencies` validator's boolean result is discarded by
`validateObject`, so only schema-form dependencies (second conjunct),
which throw from inside `validate`, are enforced. -/
theorem dependencies_key_list_not_enforced :
    validate noMatch (Schema.mk [.dependencies [("a", .keys ["b"])]])
      (JValue.obj [("a", JValue.num 1)]) = .ok ()
    ∧ validate noMatch
      (Schema.mk [.dependencies [("a", .schema (Schema.mk [.required ["b"]]))]])
      (JValue.obj [("a", JValue.num 1)]) =
      .error (.vErr (VError.mk "Object is missing required properties."
        (JValue.obj [("a", JValue.num 1)]) none none)) :=
  ⟨rfl, rfl⟩

/-- C8: the claim states that in tuple mode, elements beyond the tuple
length are not checked by `items` and no exception other than a
`ValidationError` escapes.  The code iterates `data.every` over ALL
elements: for an index beyond the tuple length it reads `undefined` and
`validate(undefined, item)` throws a `TypeError` from
`Object.keys(undefined)` — so `items: [{}]` applied to `[1, 2]` crashes
(second conjunct: without surplus elements the evaluation succeeds). -/
theorem tuple_items_surplus_raises_type_error :
    validate noMatch (Schema.mk [.items (.tuple [Schema.mk []])])
      (JValue.arr [JValue.num 1, JValue.num 2]) =
      .error (.typeError "Cannot convert undefined or null to object")
    ∧ validate noMatch (Schema.mk [.items (.tuple [Schema.mk []])])
      (JValue.arr [JValue.num 1]) = .ok () :=
  ⟨rfl, rfl⟩

/-- C9: `properties: {a: {type: "number"}}` applied to `{a: "x"}` raises a
`ValidationError` whose path is `"a"` (first conjunct); an error escaping
through an array element recursion gets no index segment (second
conjunct: the path stays `"a"`, not `"a.0"`); nested object recursion
produces the dotted path `"a.b"` (third conjunct); and in general
`validateProperty` re-throws a nested `ValidationError` with its `key`
set and its path prefixed by the current key (fourth conjunct). -/
theorem property_error_path_prefixed :
    validate noMatch
      (Schema.mk [.properties [("a", Schema.mk [.type (.str "number")])]])
      (JValue.obj [("a", JValue.str "x")]) =
      .error (.vErr (VError.mk "Invalid type, expected number."
        (JValue.str "x") (some "a") (some "a")))
    ∧ validate noMatch
      (Schema.mk [.properties [("a",
        Schema.mk [.items (.single (Schema.mk [.type (.str "number")]))])]])
      (JValue.obj [("a", JValue.arr [JValue.str "x"])]) =
      .error (.vErr (VError.mk "Invalid type, expected number."
        (JValue.str "x") (some "a") (some "a")))
    ∧ validate noMatch
      (Schema.mk [.properties [("a",
        Schema.mk [.properties [("b", Schema.mk [.type (.str "number")])]])]])
      (JValue.obj [("a", JValue.obj [("b", JValue.str "x")])]) =
      .error (.vErr (VError.mk "Invalid type, expected number."
        (JValue.str "x") (some "a") (some "a.b")))
    ∧ (∀ (v : VFun) (k : String) (d : JValue) (sub : Schema) (e : VError),
        v sub (jsLookup d k) = .error (.vErr e) →
        validatePropertyW v k d sub =
          .error (.vErr (VError.mk e.message e.cause (some k)
            (some (match e.path with
                   | some p => if p == "" then k else k ++ "." ++ p
                   | none => k))))) :=
  ⟨rfl, rfl, rfl, fun v k d sub e h => by simp [validatePropertyW, h]⟩

/-- C9 witness: the path-prefixing rule applied at a concrete nested
error. -/
theorem property_error_path_prefixed_witness :
    validatePropertyW
      (fun _ _ => .error (.vErr (VError.mk "boom" JValue.null none none)))
      "k" JValue.null (Schema.mk []) =
      .error (.vErr (VError.mk "boom" JValue.null (some "k") (some "k"))) :=
  property_error_path_prefixed.2.2.2
    (fun _ _ => .error (.vErr (VError.mk "boom" JValue.null none none)))
    "k" JValue.null (Schema.mk []) (VError.mk "boom" JValue.null none none) rfl

/-- C10: the generic `object` classifier returns true for every array, so
`{type: "object"}` validates successfully against any array (first two
conjuncts), and the object keywords are evaluated on array data treating
indices as keys: `required: ["0"]` accepts `[7]` and rejects `[]`. -/
theorem arrays_validate_as_objects :
    (∀ l : List JValue, jsIsObject (JValue.arr l) = true)
    ∧ (∀ l : List JValue,
      validate noMatch (Schema.mk [.type (.str "object")]) (JValue.arr l) = .ok ())
    ∧ validate noMatch (Schema.mk [.required ["0"]])
      (JValue.arr [JValue.num 7]) = .ok ()
    ∧ validate noMatch (Schema.mk [.required ["0"]]) (JValue.arr []) =
      .error (.vErr (VError.mk "Object is missing required properties."
        (JValue.arr []) none none)) :=
  ⟨fun l => rfl, fun l => rfl, rfl, rfl⟩
